import Mathlib

/-!
Shallow embedding of the clap-detection engine of `audio_control.py`
(class `AudioController`): feature extraction, ambient calibration,
clap validation, debounced event admission, and the clap-pattern
state machine `process_claps`.

Times and amplitudes are modelled over `ℚ` (the Python code uses
`float`; all the arithmetic the claims are about is exact).  `np.mean`
over an empty sequence yields NaN in Python, so the mean is modelled as
an `Option`, with `none` standing for NaN; a step that would produce a
NaN returns `none`.
-/

namespace AudioControl

/-- `self.base_threshold = 2000`. -/
def base_threshold : ℚ := 2000

/-- `self.threshold_multiplier = 3.0`. -/
def threshold_multiplier : ℚ := 3

/-- `self.min_clap_interval = 0.12`. -/
def min_clap_interval : ℚ := 12/100

/-- `self.max_clap_interval = 0.6`. -/
def max_clap_interval : ℚ := 6/10

/-- `self.pattern_timeout = 0.8`. -/
def pattern_timeout : ℚ := 8/10

/-- `self.pattern_cooldown = 1.5`. -/
def pattern_cooldown : ℚ := 3/2

/-- Lookback used in `process_claps`: `now - t < 2.0`. -/
def lookback_window : ℚ := 2

/-- The mutable detection state of `AudioController`. -/
structure AudioState where
  /-- `self.ambient_samples` (a deque with `maxlen=50`), oldest first. -/
  ambient_samples : List ℚ
  /-- `self.ambient_level`. -/
  ambient_level : ℚ
  /-- `self.dynamic_threshold`. -/
  dynamic_threshold : ℚ
  /-- `self.is_calibrating`. -/
  is_calibrating : Bool
  /-- `self.calibration_frames`. -/
  calibration_frames : ℕ
  /-- `self.last_peak_time`. -/
  last_peak_time : ℚ
  /-- `self.claps`: accepted clap timestamps, in append order. -/
  claps : List ℚ
  /-- `self.last_pattern_time`. -/
  last_pattern_time : ℚ
deriving Repr, DecidableEq

/-- The state built by `AudioController.__init__`. -/
def initState : AudioState :=
  { ambient_samples := []
    ambient_level := 500
    dynamic_threshold := base_threshold
    is_calibrating := true
    calibration_frames := 0
    last_peak_time := 0
    claps := []
    last_pattern_time := 0 }

/-- Append to a `collections.deque` with the given `maxlen`:
the oldest entries are evicted so at most `maxlen` remain. -/
def dequeAppend (maxlen : ℕ) (xs : List ℚ) (x : ℚ) : List ℚ :=
  let ys := xs ++ [x]
  ys.drop (ys.length - maxlen)

/-- Arithmetic mean of a nonempty list (`sum / length`). -/
def listMean (xs : List ℚ) : ℚ := xs.sum / (xs.length : ℚ)

/-- `np.mean`: `none` models the NaN produced on an empty input. -/
def npMean (xs : List ℚ) : Option ℚ :=
  if xs = [] then none else some (listMean xs)

/-- `np.mean(self.ambient_samples) if self.ambient_samples else 500`
(line 82): mean of the rolling buffer with the literal fallback used
when the buffer is empty. -/
def calibratedAmbient (samples : List ℚ) : ℚ :=
  if samples = [] then 500 else listMean samples

/-- The ambient-calibration part of one `listen` iteration
(lines 77-93): calibration phase for the first 30 blocks, then
quiet-block updates of the rolling buffer and dynamic threshold.
`none` models a NaN ambient level. -/
def ambientStep (s : AudioState) (rms : ℚ) : Option AudioState :=
  if s.is_calibrating then
    if 30 ≤ s.calibration_frames + 1 then
      some { s with
              ambient_samples := dequeAppend 50 s.ambient_samples rms
              calibration_frames := s.calibration_frames + 1
              ambient_level := calibratedAmbient (dequeAppend 50 s.ambient_samples rms)
              dynamic_threshold :=
                max base_threshold
                  (calibratedAmbient (dequeAppend 50 s.ambient_samples rms) * threshold_multiplier)
              is_calibrating := false }
    else
      some { s with
              ambient_samples := dequeAppend 50 s.ambient_samples rms
              calibration_frames := s.calibration_frames + 1 }
  else
    if rms < s.dynamic_threshold * (1/2) then
      (npMean (dequeAppend 50 s.ambient_samples rms)).map (fun amb =>
        { s with
            ambient_samples := dequeAppend 50 s.ambient_samples rms
            ambient_level := amb
            dynamic_threshold := max base_threshold (amb * threshold_multiplier) })
    else
      some s

/-- First index of the maximum absolute value (tail of the scan). -/
def argmaxAbsAux : List ℤ → ℕ → ℕ → ℤ → ℕ
  | [], _, best, _ => best
  | x :: xs, i, best, bestVal =>
    if bestVal < |x| then argmaxAbsAux xs (i+1) i |x|
    else argmaxAbsAux xs (i+1) best bestVal

/-- `np.argmax(np.abs(data))`: first index attaining the maximum
absolute amplitude (0 on an empty block). -/
def argmaxAbs : List ℤ → ℕ
  | [] => 0
  | x :: xs => argmaxAbsAux xs 1 0 |x|

/-- `AudioController._is_valid_clap(data, peak)` (lines 117-133):
sharp-attack / quick-decay shape check. -/
def isValidClap (data : List ℤ) (peak : ℚ) : Bool :=
  let peak_idx := argmaxAbs data
  if (peak_idx : ℚ) > (data.length : ℚ) * (7/10) then
    false
  else if (peak_idx : ℤ) < (data.length : ℤ) - 100 then
    let post_peak := ((data.drop peak_idx).take 100).map (fun v => ((|v| : ℤ) : ℚ))
    let tail50 := post_peak.drop (post_peak.length - 50)
    let decay_ratio := listMean tail50 / (peak + 1)
    if decay_ratio > 1/2 then false else true
  else
    true

/-- `np.max(np.abs(data))` over the block (0 on an empty block). -/
def blockPeak (data : List ℤ) : ℤ := data.foldl (fun m x => max m |x|) 0

/-- `valid_pattern` loop of `process_claps` (lines 156-161): every
consecutive interval must satisfy
`min_clap_interval ≤ interval ≤ max_clap_interval`. -/
def validIntervals : List ℚ → Bool
  | a :: b :: rest =>
    if b - a < min_clap_interval ∨ b - a > max_clap_interval then false
    else validIntervals (b :: rest)
  | _ => true

/-- `AudioController.process_claps` (lines 135-184): prune the window,
bail out on empty window / cooldown / pattern still growing, reject
badly spaced patterns, otherwise classify by count and dispatch the
mode string to the light controller.  The returned `Option String` is
the argument of the `set_mode` call, if one is made. -/
def processClaps (s : AudioState) (now : ℚ) : AudioState × Option String :=
  if hp : s.claps.filter (fun t => now - t < lookback_window) = [] then
    ({ s with claps := s.claps.filter (fun t => now - t < lookback_window) }, none)
  else if now - s.last_pattern_time < pattern_cooldown then
    ({ s with claps := s.claps.filter (fun t => now - t < lookback_window) }, none)
  else if now - (s.claps.filter (fun t => now - t < lookback_window)).getLast hp
      < pattern_timeout then
    ({ s with claps := s.claps.filter (fun t => now - t < lookback_window) }, none)
  else if validIntervals (s.claps.filter (fun t => now - t < lookback_window)) = false then
    ({ s with claps := [] }, none)
  else if 3 ≤ (s.claps.filter (fun t => now - t < lookback_window)).length then
    ({ s with claps := [], last_pattern_time := now }, some "Party")
  else if (s.claps.filter (fun t => now - t < lookback_window)).length = 2 then
    ({ s with claps := [], last_pattern_time := now }, some "Relaxing")
  else if (s.claps.filter (fun t => now - t < lookback_window)).length = 1 then
    ({ s with claps := [], last_pattern_time := now }, some "Normal")
  else
    ({ s with claps := s.claps.filter (fun t => now - t < lookback_window) }, none)

/-- One block's worth of loop input: the PCM block, its RMS feature,
the `time.time()` read in `listen` (`now`) and the one read inside
`process_claps` (`nowP`). -/
structure BlockInput where
  block : List ℤ
  rms : ℚ
  now : ℚ
  nowP : ℚ
deriving Repr, DecidableEq

/-- Clap admission in `listen` (lines 95-106): a block whose peak
exceeds the dynamic threshold is promoted to a clap event iff the
same-clap debounce has elapsed and the shape check passes.  Returns
the updated state and the accepted event's timestamp, if any. -/
def detectStep (s : AudioState) (inp : BlockInput) : AudioState × Option ℚ :=
  if ((blockPeak inp.block : ℤ) : ℚ) > s.dynamic_threshold ∧
      inp.now - s.last_peak_time > min_clap_interval ∧
      isValidClap inp.block ((blockPeak inp.block : ℤ) : ℚ) = true then
    ({ s with claps := s.claps ++ [inp.now], last_peak_time := inp.now }, some inp.now)
  else
    (s, none)

/-- One full iteration of the `listen` loop body on one block:
ambient update, clap admission, then `process_claps`.  Returns the new
state, the accepted clap event (if any) and the dispatched mode string
(if any); `none` models a NaN in the ambient computation. -/
def listenStep (s : AudioState) (inp : BlockInput) :
    Option (AudioState × Option ℚ × Option String) :=
  (ambientStep s inp.rms).map (fun s1 =>
    ((processClaps (detectStep s1 inp).1 inp.nowP).1,
     (detectStep s1 inp).2,
     (processClaps (detectStep s1 inp).1 inp.nowP).2))

/-- Run the `listen` loop over a list of block inputs, collecting the
accepted clap-event timestamps and the dispatched gestures (mode
string tagged with its fire timestamp `nowP`). -/
def runListen (s : AudioState) :
    List BlockInput → Option (AudioState × List ℚ × List (ℚ × String))
  | [] => some (s, [], [])
  | inp :: rest =>
    (listenStep s inp).bind (fun out =>
      (runListen out.1 rest).map (fun r =>
        (r.1, out.2.1.toList ++ r.2.1,
          (out.2.2.map (fun m => (inp.nowP, m))).toList ++ r.2.2)))

/-! Claim-side definitions: formulations taken from the wording of the
specification, to be compared with the source-level functions above. -/

/-- Claim side: the peak index lies past 70% of the block length. -/
def peakTooLate (data : List ℤ) : Prop :=
  ((argmaxAbs data : ℚ)) > (data.length : ℚ) * (7/10)

/-- Claim side: number of trailing samples strictly after the peak. -/
def trailingSamples (data : List ℤ) : ℤ :=
  (data.length : ℤ) - (argmaxAbs data : ℤ) - 1

/-- Claim side: mean absolute amplitude of the last 50 of the 100
samples starting at the peak, divided by `peak + 1`. -/
def decayRatio (data : List ℤ) (peak : ℚ) : ℚ :=
  let post := ((data.drop (argmaxAbs data)).take 100).map (fun v => ((|v| : ℤ) : ℚ))
  listMean (post.drop (post.length - 50)) / (peak + 1)

/-- Claim side: a consecutive clap gap lies within
`[min_clap_interval, max_clap_interval]`. -/
def gapInBounds (a b : ℚ) : Prop :=
  min_clap_interval ≤ b - a ∧ b - a ≤ max_clap_interval

instance (a b : ℚ) : Decidable (gapInBounds a b) :=
  inferInstanceAs (Decidable (min_clap_interval ≤ b - a ∧ b - a ≤ max_clap_interval))

instance : Decidable (peakTooLate data) :=
  inferInstanceAs (Decidable (((argmaxAbs data : ℚ)) > (data.length : ℚ) * (7/10)))

/-! Concrete states and inputs used by the witnesses. -/

/-- A four-block demonstration run: a clap block at `t = 1`, silence at
`t = 2` (a Normal fire), a clap block at `t = 4`, silence at `t = 5`
(a second Normal fire). -/
def demoInputs : List BlockInput :=
  [⟨[3000], 400, 1, 1⟩, ⟨[], 400, 2, 2⟩, ⟨[3000], 400, 4, 4⟩, ⟨[], 400, 5, 5⟩]

/-- State after the first block of `demoInputs`. -/
def demoMid : AudioState :=
  { initState with
      ambient_samples := [400]
      calibration_frames := 1
      last_peak_time := 1
      claps := [1] }

/-- State after the second block of `demoInputs` (first fire). -/
def demoS2 : AudioState :=
  { initState with
      ambient_samples := [400, 400]
      calibration_frames := 2
      last_peak_time := 1
      claps := []
      last_pattern_time := 2 }

/-- State after the third block of `demoInputs`. -/
def demoS3 : AudioState :=
  { initState with
      ambient_samples := [400, 400, 400]
      calibration_frames := 3
      last_peak_time := 4
      claps := [4]
      last_pattern_time := 2 }

/-- Final state of the `demoInputs` run. -/
def demoEnd : AudioState :=
  { initState with
      ambient_samples := [400, 400, 400, 400]
      calibration_frames := 4
      last_peak_time := 4
      claps := []
      last_pattern_time := 5 }

/-- A state one block short of finishing calibration. -/
def calibState29 : AudioState :=
  { initState with
      ambient_samples := List.replicate 29 400
      calibration_frames := 29 }

/-- 29 quiet calibration blocks with RMS 400. -/
def calibInputs : List BlockInput := List.replicate 29 ⟨[], 400, 0, 0⟩

/-- A post-calibration state with an empty rolling buffer. -/
def steadyState : AudioState := { initState with is_calibrating := false }

/-! Helper lemmas about the embedded operations. -/

lemma dequeAppend_ne_nil (xs : List ℚ) (x : ℚ) : dequeAppend 50 xs x ≠ [] := by
  have hlen : 0 < (dequeAppend 50 xs x).length := by
    simp only [dequeAppend, List.length_drop, List.length_append, List.length_singleton]
    omega
  exact List.ne_nil_of_length_pos hlen

lemma npMean_dequeAppend (xs : List ℚ) (x : ℚ) :
    npMean (dequeAppend 50 xs x) = some (listMean (dequeAppend 50 xs x)) := by
  rw [npMean, if_neg (dequeAppend_ne_nil xs x)]

lemma dequeAppend_spec (xs : List ℚ) (x : ℚ) (h : xs.length ≤ 50) :
    dequeAppend 50 xs x =
      if xs.length = 50 then xs.drop 1 ++ [x] else xs ++ [x] := by
  rcases eq_or_lt_of_le h with h50 | h50
  · rw [if_pos h50, dequeAppend]
    have : (xs ++ [x]).length - 50 = 1 := by
      simp [List.length_append, h50]
    rw [this, List.drop_append_of_le_length (by omega)]
  · rw [if_neg (by omega), dequeAppend]
    have : (xs ++ [x]).length - 50 = 0 := by
      simp only [List.length_append, List.length_singleton]; omega
    rw [this, List.drop_zero]

lemma ambientStep_total (s : AudioState) (rms : ℚ) :
    ∃ s1, ambientStep s rms = some s1 := by
  unfold ambientStep
  split_ifs with h1 h2 h3
  · exact ⟨_, rfl⟩
  · exact ⟨_, rfl⟩
  · rw [npMean_dequeAppend]
    exact ⟨_, rfl⟩
  · exact ⟨_, rfl⟩

/-- The ambient-update step never touches the clap-detection state. -/
lemma ambientStep_preserves (s : AudioState) (rms : ℚ) (s1 : AudioState)
    (h : ambientStep s rms = some s1) :
    s1.last_peak_time = s.last_peak_time ∧ s1.claps = s.claps ∧
      s1.last_pattern_time = s.last_pattern_time := by
  unfold ambientStep at h
  split_ifs at h with h1 h2 h3
  · cases h; exact ⟨rfl, rfl, rfl⟩
  · cases h; exact ⟨rfl, rfl, rfl⟩
  · rw [npMean_dequeAppend, Option.map_some'] at h
    cases h; exact ⟨rfl, rfl, rfl⟩
  · cases h; exact ⟨rfl, rfl, rfl⟩

/-- The ambient-update step maintains the dynamic-threshold invariant. -/
lemma ambientStep_threshold (s : AudioState) (rms : ℚ) (s1 : AudioState)
    (hinv : s.dynamic_threshold = max base_threshold (s.ambient_level * threshold_multiplier))
    (h : ambientStep s rms = some s1) :
    s1.dynamic_threshold = max base_threshold (s1.ambient_level * threshold_multiplier) := by
  unfold ambientStep at h
  split_ifs at h with h1 h2 h3
  · cases h; exact rfl
  · cases h; exact hinv
  · rw [npMean_dequeAppend, Option.map_some'] at h
    cases h; exact rfl
  · cases h; exact hinv

/-- If the state is still calibrating after an ambient update, it was
calibrating before and neither the threshold nor the ambient level
moved. -/
lemma ambientStep_calibrating (s : AudioState) (rms : ℚ) (s1 : AudioState)
    (h : ambientStep s rms = some s1) (hc : s1.is_calibrating = true) :
    s.is_calibrating = true ∧ s1.dynamic_threshold = s.dynamic_threshold ∧
      s1.ambient_level = s.ambient_level := by
  unfold ambientStep at h
  split_ifs at h with h1 h2 h3
  · cases h; cases hc
  · cases h; exact ⟨h1, rfl, rfl⟩
  · rw [npMean_dequeAppend, Option.map_some'] at h
    cases h
    exact absurd hc h1
  · cases h
    exact ⟨hc, rfl, rfl⟩

/-- Clap admission never touches the ambient fields, the calibration
fields or the cooldown state. -/
lemma detectStep_fields (s : AudioState) (inp : BlockInput) :
    (detectStep s inp).1.ambient_samples = s.ambient_samples ∧
    (detectStep s inp).1.ambient_level = s.ambient_level ∧
    (detectStep s inp).1.dynamic_threshold = s.dynamic_threshold ∧
    (detectStep s inp).1.is_calibrating = s.is_calibrating ∧
    (detectStep s inp).1.calibration_frames = s.calibration_frames ∧
    (detectStep s inp).1.last_pattern_time = s.last_pattern_time := by
  unfold detectStep
  split_ifs <;> exact ⟨rfl, rfl, rfl, rfl, rfl, rfl⟩

/-- Clap admission either accepts the block at `inp.now` (debounce
satisfied) or leaves the detection state alone. -/
lemma detectStep_cases (s : AudioState) (inp : BlockInput) :
    (detectStep s inp = (s, none)) ∨
    (detectStep s inp =
        ({ s with claps := s.claps ++ [inp.now], last_peak_time := inp.now }, some inp.now) ∧
      ((blockPeak inp.block : ℤ) : ℚ) > s.dynamic_threshold ∧
      min_clap_interval < inp.now - s.last_peak_time ∧
      isValidClap inp.block ((blockPeak inp.block : ℤ) : ℚ) = true) := by
  unfold detectStep
  split_ifs with h
  · exact Or.inr ⟨rfl, h.1, h.2.1, h.2.2⟩
  · exact Or.inl rfl

/-- `process_claps` never touches the ambient fields, the calibration
fields or the debounce clock. -/
lemma processClaps_fields (s : AudioState) (now : ℚ) :
    (processClaps s now).1.ambient_samples = s.ambient_samples ∧
    (processClaps s now).1.ambient_level = s.ambient_level ∧
    (processClaps s now).1.dynamic_threshold = s.dynamic_threshold ∧
    (processClaps s now).1.is_calibrating = s.is_calibrating ∧
    (processClaps s now).1.calibration_frames = s.calibration_frames ∧
    (processClaps s now).1.last_peak_time = s.last_peak_time := by
  unfold processClaps
  split_ifs <;> exact ⟨rfl, rfl, rfl, rfl, rfl, rfl⟩

/-- A dispatch from `process_claps` can only happen once the cooldown
has fully elapsed, and it resets the cooldown clock to `now`. -/
lemma processClaps_fire (s : AudioState) (now : ℚ) (s1 : AudioState) (g : String)
    (h : processClaps s now = (s1, some g)) :
    pattern_cooldown ≤ now - s.last_pattern_time ∧ s1.last_pattern_time = now := by
  unfold processClaps at h
  split_ifs at h with h1 h2 h3 h4 h5 h6 h7 <;>
    simp only [Prod.mk.injEq] at h
  · exact absurd h.2 (by simp)
  · exact absurd h.2 (by simp)
  · exact absurd h.2 (by simp)
  · exact absurd h.2 (by simp)
  · exact ⟨not_lt.mp h2, by rw [← h.1]⟩
  · exact ⟨not_lt.mp h2, by rw [← h.1]⟩
  · exact ⟨not_lt.mp h2, by rw [← h.1]⟩
  · exact absurd h.2 (by simp)

/-- When `process_claps` does not dispatch, the cooldown clock is
untouched. -/
lemma processClaps_nofire (s : AudioState) (now : ℚ) (s1 : AudioState)
    (h : processClaps s now = (s1, none)) :
    s1.last_pattern_time = s.last_pattern_time := by
  unfold processClaps at h
  split_ifs at h with h1 h2 h3 h4 h5 h6 h7 <;>
    simp only [Prod.mk.injEq] at h
  · rw [← h.1]
  · rw [← h.1]
  · rw [← h.1]
  · rw [← h.1]
  · exact absurd h.2 (by simp)
  · exact absurd h.2 (by simp)
  · exact absurd h.2 (by simp)
  · rw [← h.1]

/-- The source's interval check agrees with the claim's formulation:
every consecutive gap lies in `[min_clap_interval, max_clap_interval]`. -/
lemma validIntervals_iff (l : List ℚ) :
    validIntervals l = true ↔ List.Chain' gapInBounds l := by
  induction l with
  | nil => simp [validIntervals]
  | cons a t ih =>
    cases t with
    | nil => simp [validIntervals]
    | cons b r =>
      rw [List.chain'_cons, validIntervals]
      by_cases hab : b - a < min_clap_interval ∨ b - a > max_clap_interval
      · rw [if_pos hab]
        simp only [Bool.false_eq_true, false_iff]
        rintro ⟨⟨hg1, hg2⟩, -⟩
        rcases hab with h | h
        · exact absurd hg1 (not_le.mpr h)
        · exact absurd hg2 (not_le.mpr h)
      · push_neg at hab
        rw [if_neg (by push_neg; exact hab)]
        rw [ih]
        have hg : gapInBounds a b := ⟨hab.1, hab.2⟩
        simp [hg]

/-- Decompose a successful `listen` iteration into its three phases. -/
lemma listenStep_eq_some (s : AudioState) (inp : BlockInput)
    (out : AudioState × Option ℚ × Option String) (h : listenStep s inp = some out) :
    ∃ sa, ambientStep s inp.rms = some sa ∧
      out = ((processClaps (detectStep sa inp).1 inp.nowP).1,
             (detectStep sa inp).2,
             (processClaps (detectStep sa inp).1 inp.nowP).2) := by
  unfold listenStep at h
  rw [Option.map_eq_some'] at h
  obtain ⟨sa, h1, h2⟩ := h
  exact ⟨sa, h1, h2.symm⟩

/-- The ambient-side fields of the post-iteration state are exactly
those produced by the ambient update. -/
lemma listenStep_ambient_fields (s : AudioState) (inp : BlockInput)
    (s1 : AudioState) (ev : Option ℚ) (fire : Option String)
    (h : listenStep s inp = some (s1, ev, fire)) :
    ∃ sa, ambientStep s inp.rms = some sa ∧
      s1.ambient_samples = sa.ambient_samples ∧
      s1.ambient_level = sa.ambient_level ∧
      s1.dynamic_threshold = sa.dynamic_threshold ∧
      s1.is_calibrating = sa.is_calibrating ∧
      s1.calibration_frames = sa.calibration_frames := by
  obtain ⟨sa, hA, hout⟩ := listenStep_eq_some s inp _ h
  injection hout with h1 hrest
  subst h1
  refine ⟨sa, hA, ?_, ?_, ?_, ?_, ?_⟩
  · exact ((processClaps_fields _ _).1).trans (detectStep_fields sa inp).1
  · exact ((processClaps_fields _ _).2.1).trans (detectStep_fields sa inp).2.1
  · exact ((processClaps_fields _ _).2.2.1).trans (detectStep_fields sa inp).2.2.1
  · exact ((processClaps_fields _ _).2.2.2.1).trans (detectStep_fields sa inp).2.2.2.1
  · exact ((processClaps_fields _ _).2.2.2.2.1).trans (detectStep_fields sa inp).2.2.2.2.1

/-- A `listen` iteration either dispatches no gesture and keeps the
cooldown clock, or dispatches one at `inp.nowP` with the cooldown
fully elapsed. -/
lemma listenStep_pattern_cases (s : AudioState) (inp : BlockInput)
    (s1 : AudioState) (ev : Option ℚ) (fire : Option String)
    (h : listenStep s inp = some (s1, ev, fire)) :
    (fire = none ∧ s1.last_pattern_time = s.last_pattern_time) ∨
    (∃ g, fire = some g ∧ s1.last_pattern_time = inp.nowP ∧
      pattern_cooldown ≤ inp.nowP - s.last_pattern_time) := by
  obtain ⟨sa, hA, hout⟩ := listenStep_eq_some s inp _ h
  obtain ⟨-, -, hlp⟩ := ambientStep_preserves s inp.rms sa hA
  have hd := (detectStep_fields sa inp).2.2.2.2.2
  injection hout with h1 hrest
  injection hrest with h2 h3
  subst h1
  subst h3
  cases hP2 : (processClaps (detectStep sa inp).1 inp.nowP).2 with
  | none =>
    left
    have hPeq : processClaps (detectStep sa inp).1 inp.nowP =
        ((processClaps (detectStep sa inp).1 inp.nowP).1, none) := by
      rw [← hP2]
    have := processClaps_nofire _ _ _ hPeq
    exact ⟨rfl, by rw [this, hd, hlp]⟩
  | some g =>
    right
    have hPeq : processClaps (detectStep sa inp).1 inp.nowP =
        ((processClaps (detectStep sa inp).1 inp.nowP).1, some g) := by
      rw [← hP2]
    obtain ⟨hcool, hset⟩ := processClaps_fire _ _ _ _ hPeq
    rw [hd, hlp] at hcool
    exact ⟨g, rfl, hset, hcool⟩

/-- A `listen` iteration either accepts no clap event and keeps the
debounce clock, or accepts one at `inp.now` with the debounce
interval strictly elapsed. -/
lemma listenStep_peak_cases (s : AudioState) (inp : BlockInput)
    (s1 : AudioState) (ev : Option ℚ) (fire : Option String)
    (h : listenStep s inp = some (s1, ev, fire)) :
    (ev = none ∧ s1.last_peak_time = s.last_peak_time) ∨
    (ev = some inp.now ∧ s1.last_peak_time = inp.now ∧
      min_clap_interval < inp.now - s.last_peak_time) := by
  obtain ⟨sa, hA, hout⟩ := listenStep_eq_some s inp _ h
  obtain ⟨hpk, -, -⟩ := ambientStep_preserves s inp.rms sa hA
  injection hout with h1 hrest
  injection hrest with h2 h3
  subst h1
  subst h2
  have hproc := (processClaps_fields (detectStep sa inp).1 inp.nowP).2.2.2.2.2
  rcases detectStep_cases sa inp with hd | ⟨hd, hpeak, hint, hvalid⟩
  · left
    rw [hd] at hproc ⊢
    exact ⟨rfl, hproc.trans hpk⟩
  · right
    rw [hd] at hproc ⊢
    refine ⟨rfl, hproc, ?_⟩
    rw [hpk] at hint
    exact hint

/-- Unfold one `cons` layer of a successful run. -/
lemma runListen_cons_eq_some (s : AudioState) (inp : BlockInput) (rest : List BlockInput)
    (s' : AudioState) (acc : List ℚ) (fires : List (ℚ × String))
    (h : runListen s (inp :: rest) = some (s', acc, fires)) :
    ∃ s1 ev fire acc2 fires2,
      listenStep s inp = some (s1, ev, fire) ∧
      runListen s1 rest = some (s', acc2, fires2) ∧
      acc = ev.toList ++ acc2 ∧
      fires = (fire.map (fun m => (inp.nowP, m))).toList ++ fires2 := by
  rw [runListen, Option.bind_eq_some] at h
  obtain ⟨out, hstep, h⟩ := h
  rw [Option.map_eq_some'] at h
  obtain ⟨r, hrun, hr⟩ := h
  obtain ⟨s1, ev, fire⟩ := out
  obtain ⟨s2, acc2, fires2⟩ := r
  simp only [Prod.mk.injEq] at hr
  obtain ⟨hr1, hr2, hr3⟩ := hr
  subst hr1
  exact ⟨s1, ev, fire, acc2, fires2, hstep, hrun, hr2.symm, hr3.symm⟩

/-- Run-level cooldown invariant: dispatched fire timestamps are
pairwise at least `pattern_cooldown` apart and all exceed the starting
cooldown clock by at least `pattern_cooldown`. -/
lemma runListen_fires (inputs : List BlockInput) :
    ∀ (s s' : AudioState) (acc : List ℚ) (fires : List (ℚ × String)),
      runListen s inputs = some (s', acc, fires) →
        List.Pairwise (fun p q => pattern_cooldown ≤ q.1 - p.1) fires ∧
        (∀ p ∈ fires, s.last_pattern_time + pattern_cooldown ≤ p.1) ∧
        s.last_pattern_time ≤ s'.last_pattern_time := by
  have hc0 : (0 : ℚ) ≤ pattern_cooldown := by norm_num [pattern_cooldown]
  induction inputs with
  | nil =>
    intro s s' acc fires h
    simp only [runListen, Option.some.injEq, Prod.mk.injEq] at h
    obtain ⟨h1, -, h3⟩ := h
    subst h1
    subst h3
    simp
  | cons inp rest ih =>
    intro s s' acc fires h
    obtain ⟨s1, ev, fire, acc2, fires2, hstep, hrun, hacc, hfires⟩ :=
      runListen_cons_eq_some s inp rest s' acc fires h
    obtain ⟨hpw, hlb, hmono⟩ := ih s1 s' acc2 fires2 hrun
    rcases listenStep_pattern_cases s inp s1 ev fire hstep with ⟨hf, hlp⟩ | ⟨g, hf, hlp, hcool⟩
    · subst hf
      subst hfires
      rw [hlp] at hlb hmono
      exact ⟨hpw, hlb, hmono⟩
    · subst hf
      subst hfires
      simp only [Option.map_some', Option.toList_some, List.singleton_append]
      rw [hlp] at hlb hmono
      refine ⟨List.Pairwise.cons ?_ hpw, ?_, ?_⟩
      · intro q hq
        have := hlb q hq
        simp only at this ⊢
        linarith
      · intro p hp
        rcases List.mem_cons.mp hp with hp | hp
        · subst hp
          simp only
          linarith
        · have := hlb p hp
          linarith
      · linarith

/-- Run-level debounce invariant: accepted clap-event timestamps are
pairwise at least `min_clap_interval` apart and all strictly exceed
the starting debounce clock by more than `min_clap_interval`. -/
lemma runListen_acc (inputs : List BlockInput) :
    ∀ (s s' : AudioState) (acc : List ℚ) (fires : List (ℚ × String)),
      runListen s inputs = some (s', acc, fires) →
        List.Pairwise (fun t1 t2 => min_clap_interval ≤ t2 - t1) acc ∧
        (∀ t ∈ acc, s.last_peak_time + min_clap_interval < t) ∧
        s.last_peak_time ≤ s'.last_peak_time := by
  have hm0 : (0 : ℚ) < min_clap_interval := by norm_num [min_clap_interval]
  induction inputs with
  | nil =>
    intro s s' acc fires h
    simp only [runListen, Option.some.injEq, Prod.mk.injEq] at h
    obtain ⟨h1, h2, -⟩ := h
    subst h1
    subst h2
    simp
  | cons inp rest ih =>
    intro s s' acc fires h
    obtain ⟨s1, ev, fire, acc2, fires2, hstep, hrun, hacc, hfires⟩ :=
      runListen_cons_eq_some s inp rest s' acc fires h
    obtain ⟨hpw, hlb, hmono⟩ := ih s1 s' acc2 fires2 hrun
    rcases listenStep_peak_cases s inp s1 ev fire hstep with ⟨he, hlpk⟩ | ⟨he, hlpk, hint⟩
    · subst he
      subst hacc
      rw [hlpk] at hlb hmono
      exact ⟨hpw, hlb, hmono⟩
    · subst he
      subst hacc
      simp only [Option.toList_some, List.singleton_append]
      rw [hlpk] at hlb hmono
      refine ⟨List.Pairwise.cons ?_ hpw, ?_, ?_⟩
      · intro q hq
        have := hlb q hq
        linarith
      · intro t ht
        rcases List.mem_cons.mp ht with ht | ht
        · subst ht
          linarith
        · have := hlb t ht
          linarith
      · linarith

/-- Run-level preservation of the dynamic-threshold invariant. -/
lemma runListen_threshold (inputs : List BlockInput) :
    ∀ (s s' : AudioState) (acc : List ℚ) (fires : List (ℚ × String)),
      runListen s inputs = some (s', acc, fires) →
      s.dynamic_threshold = max base_threshold (s.ambient_level * threshold_multiplier) →
      s'.dynamic_threshold = max base_threshold (s'.ambient_level * threshold_multiplier) := by
  induction inputs with
  | nil =>
    intro s s' acc fires h hinv
    simp only [runListen, Option.some.injEq, Prod.mk.injEq] at h
    obtain ⟨h1, -, -⟩ := h
    subst h1
    exact hinv
  | cons inp rest ih =>
    intro s s' acc fires h hinv
    obtain ⟨s1, ev, fire, acc2, fires2, hstep, hrun, -, -⟩ :=
      runListen_cons_eq_some s inp rest s' acc fires h
    obtain ⟨sa, hA, hsamp, hamb, hthr, -, -⟩ :=
      listenStep_ambient_fields s inp s1 ev fire hstep
    have hsa := ambientStep_threshold s inp.rms sa hinv hA
    exact ih s1 s' acc2 fires2 hrun (by rw [hthr, hamb]; exact hsa)

/-- Run-level preservation of the calibration-phase invariant: while
still calibrating, the threshold is the base threshold and the ambient
level still has its initial value. -/
lemma runListen_calibrating (inputs : List BlockInput) :
    ∀ (s s' : AudioState) (acc : List ℚ) (fires : List (ℚ × String)),
      runListen s inputs = some (s', acc, fires) →
      (s.is_calibrating = true →
        s.dynamic_threshold = base_threshold ∧ s.ambient_level = 500) →
      (s'.is_calibrating = true →
        s'.dynamic_threshold = base_threshold ∧ s'.ambient_level = 500) := by
  induction inputs with
  | nil =>
    intro s s' acc fires h hinv
    simp only [runListen, Option.some.injEq, Prod.mk.injEq] at h
    obtain ⟨h1, -, -⟩ := h
    subst h1
    exact hinv
  | cons inp rest ih =>
    intro s s' acc fires h hinv
    obtain ⟨s1, ev, fire, acc2, fires2, hstep, hrun, -, -⟩ :=
      runListen_cons_eq_some s inp rest s' acc fires h
    obtain ⟨sa, hA, hsamp, hamb, hthr, hcal, -⟩ :=
      listenStep_ambient_fields s inp s1 ev fire hstep
    refine ih s1 s' acc2 fires2 hrun ?_
    intro hc1
    rw [hcal] at hc1
    obtain ⟨hscal, hthr2, hamb2⟩ := ambientStep_calibrating s inp.rms sa hA hc1
    obtain ⟨hb, ha⟩ := hinv hscal
    exact ⟨by rw [hthr, hthr2, hb], by rw [hamb, hamb2, ha]⟩

/-- A record update writing `[]` into a `claps` field that is already
empty is the identity. -/
lemma updateClaps_self (s : AudioState) (h : s.claps = []) :
    ({ s with claps := ([] : List ℚ) } : AudioState) = s := by
  cases s
  simp only at h
  rw [h]

/-! Concrete evaluations of the demonstration run, one block at a time. -/

lemma demoStep1 : listenStep initState ⟨[3000], 400, 1, 1⟩ = some (demoMid, some 1, none) := by
  have hA : ambientStep initState 400 =
      some { initState with ambient_samples := [400], calibration_frames := 1 } := by
    norm_num [ambientStep, dequeAppend, initState]
  have hD : detectStep { initState with ambient_samples := [400], calibration_frames := 1 }
      (⟨[3000], 400, 1, 1⟩ : BlockInput) = (demoMid, some 1) := by
    norm_num [detectStep, isValidClap, argmaxAbs, argmaxAbsAux, blockPeak, listMean,
      initState, demoMid, base_threshold, min_clap_interval]
  have hP : processClaps demoMid 1 = (demoMid, none) := by
    norm_num [processClaps, initState, demoMid, pattern_cooldown, lookback_window]
  rw [listenStep]
  dsimp only
  rw [hA, Option.map_some']
  dsimp only
  rw [hD]
  dsimp only
  rw [hP]

lemma demoStep2 : listenStep demoMid ⟨[], 400, 2, 2⟩ = some (demoS2, none, some "Normal") := by
  have hA : ambientStep demoMid 400 =
      some { demoMid with ambient_samples := [400, 400], calibration_frames := 2 } := by
    norm_num [ambientStep, dequeAppend, demoMid, initState]
  have hD : detectStep { demoMid with ambient_samples := [400, 400], calibration_frames := 2 }
      (⟨[], 400, 2, 2⟩ : BlockInput) =
      ({ demoMid with ambient_samples := [400, 400], calibration_frames := 2 }, none) := by
    norm_num [detectStep, blockPeak, demoMid, initState, base_threshold]
  have hP : processClaps { demoMid with ambient_samples := [400, 400], calibration_frames := 2 }
      2 = (demoS2, some "Normal") := by
    norm_num [processClaps, validIntervals, demoMid, demoS2, initState, pattern_cooldown,
      pattern_timeout, lookback_window, min_clap_interval, max_clap_interval, List.getLast]
  rw [listenStep]
  dsimp only
  rw [hA, Option.map_some']
  dsimp only
  rw [hD]
  dsimp only
  rw [hP]

lemma demoStep3 : listenStep demoS2 ⟨[3000], 400, 4, 4⟩ = some (demoS3, some 4, none) := by
  have hA : ambientStep demoS2 400 =
      some { demoS2 with ambient_samples := [400, 400, 400], calibration_frames := 3 } := by
    norm_num [ambientStep, dequeAppend, demoS2, initState]
  have hD : detectStep
      { demoS2 with ambient_samples := [400, 400, 400], calibration_frames := 3 }
      (⟨[3000], 400, 4, 4⟩ : BlockInput) = (demoS3, some 4) := by
    norm_num [detectStep, isValidClap, argmaxAbs, argmaxAbsAux, blockPeak, listMean,
      demoS2, demoS3, initState, base_threshold, min_clap_interval]
  have hP : processClaps demoS3 4 = (demoS3, none) := by
    norm_num [processClaps, demoS3, initState, pattern_cooldown, pattern_timeout,
      lookback_window, List.getLast]
  rw [listenStep]
  dsimp only
  rw [hA, Option.map_some']
  dsimp only
  rw [hD]
  dsimp only
  rw [hP]

lemma demoStep4 : listenStep demoS3 ⟨[], 400, 5, 5⟩ = some (demoEnd, none, some "Normal") := by
  have hA : ambientStep demoS3 400 =
      some { demoS3 with ambient_samples := [400, 400, 400, 400], calibration_frames := 4 } := by
    norm_num [ambientStep, dequeAppend, demoS3, initState]
  have hD : detectStep
      { demoS3 with ambient_samples := [400, 400, 400, 400], calibration_frames := 4 }
      (⟨[], 400, 5, 5⟩ : BlockInput) =
      ({ demoS3 with ambient_samples := [400, 400, 400, 400], calibration_frames := 4 },
        none) := by
    norm_num [detectStep, blockPeak, demoS3, initState, base_threshold]
  have hP : processClaps
      { demoS3 with ambient_samples := [400, 400, 400, 400], calibration_frames := 4 } 5 =
      (demoEnd, some "Normal") := by
    norm_num [processClaps, validIntervals, demoS3, demoEnd, initState, pattern_cooldown,
      pattern_timeout, lookback_window, min_clap_interval, max_clap_interval, List.getLast]
  rw [listenStep]
  dsimp only
  rw [hA, Option.map_some']
  dsimp only
  rw [hD]
  dsimp only
  rw [hP]

/-- The full demonstration run: claps accepted at t = 1 and t = 4,
gestures dispatched at t = 2 and t = 5. -/
lemma demoRunEq : runListen initState demoInputs =
    some (demoEnd, [1, 4], [(2, "Normal"), (5, "Normal")]) := by
  rw [demoInputs, runListen, demoStep1, Option.some_bind]
  dsimp only
  rw [runListen, demoStep2, Option.some_bind]
  dsimp only
  rw [runListen, demoStep3, Option.some_bind]
  dsimp only
  rw [runListen, demoStep4, Option.some_bind]
  dsimp only
  rw [runListen]
  dsimp only [Option.map_some', Option.toList]
  rfl

/-- Quiet silent blocks during calibration just grow the rolling
buffer and the frame counter. -/
lemma calibQuietRun (n : ℕ) :
    ∀ (s : AudioState), s.is_calibrating = true →
      s.calibration_frames + n ≤ 29 →
      s.ambient_samples.length ≤ s.calibration_frames →
      s.claps = [] →
      s.dynamic_threshold = base_threshold →
      runListen s (List.replicate n ⟨[], 400, 0, 0⟩) =
        some ({ s with
                 ambient_samples := s.ambient_samples ++ List.replicate n 400
                 calibration_frames := s.calibration_frames + n }, [], []) := by
  induction n with
  | zero =>
    intro s hcal hfr hlen hclaps hthr
    rw [List.replicate_zero, runListen]
    refine congrArg some ?_
    refine Prod.ext ?_ rfl
    cases s
    simp
  | succ n ih =>
    intro s hcal hfr hlen hclaps hthr
    have hA : ambientStep s 400 =
        some { s with
                ambient_samples := s.ambient_samples ++ [400]
                calibration_frames := s.calibration_frames + 1 } := by
      have hde : dequeAppend 50 s.ambient_samples 400 = s.ambient_samples ++ [400] := by
        rw [dequeAppend_spec _ _ (by omega), if_neg (by omega)]
      unfold ambientStep
      rw [if_pos hcal, if_neg (by omega), hde]
    have hD : detectStep
        { s with
            ambient_samples := s.ambient_samples ++ [400]
            calibration_frames := s.calibration_frames + 1 }
        (⟨[], 400, 0, 0⟩ : BlockInput) =
        ({ s with
            ambient_samples := s.ambient_samples ++ [400]
            calibration_frames := s.calibration_frames + 1 }, none) := by
      unfold detectStep
      rw [if_neg]
      rintro ⟨h0, -⟩
      rw [show ((blockPeak [] : ℤ) : ℚ) = 0 from rfl] at h0
      dsimp only at h0
      rw [hthr] at h0
      norm_num [base_threshold] at h0
    have hP : processClaps
        { s with
            ambient_samples := s.ambient_samples ++ [400]
            calibration_frames := s.calibration_frames + 1 } 0 =
        ({ s with
            ambient_samples := s.ambient_samples ++ [400]
            calibration_frames := s.calibration_frames + 1 }, none) := by
      unfold processClaps
      rw [dif_pos (by dsimp only; rw [hclaps]; rfl)]
      refine Prod.ext ?_ rfl
      dsimp only
      rw [hclaps]
      rfl
    have hstep : listenStep s ⟨[], 400, 0, 0⟩ =
        some ({ s with
                 ambient_samples := s.ambient_samples ++ [400]
                 calibration_frames := s.calibration_frames + 1 }, none, none) := by
      rw [listenStep]
      simp only [hA, Option.map_some', hD, hP]
    rw [List.replicate_succ, runListen, hstep, Option.some_bind]
    dsimp only
    rw [ih { s with
          ambient_samples := s.ambient_samples ++ [400]
          calibration_frames := s.calibration_frames + 1 }
      hcal
      (show s.calibration_frames + 1 + n ≤ 29 by omega)
      (show (s.ambient_samples ++ [400]).length ≤ s.calibration_frames + 1 by
        simp only [List.length_append, List.length_singleton]; omega)
      hclaps hthr]
    rw [Option.map_some']
    dsimp only
    refine congrArg some ?_
    refine Prod.ext ?_ rfl
    cases s
    dsimp only
    simp only [AudioState.mk.injEq, List.append_assoc, List.singleton_append,
      List.replicate_succ, and_true, true_and]
    omega

/-! The claims. -/

/-- C1: for every evaluation step of `process_claps` in which the
pruned clap window is non-empty, the cooldown is not active
(`now - last_fire_time ≥ cooldown`), at least `pattern_timeout` has
elapsed since the last clap in the window, and every consecutive gap
lies within `[min_clap_interval, max_clap_interval]`: exactly one
gesture is dispatched to the lighting controller, mapped by count as
1 → "Normal", 2 → "Relaxing", ≥ 3 → "Party"; the window is cleared and
`last_fire_time` is set to `now`. -/
theorem C1_valid_pattern_dispatch (s : AudioState) (now : ℚ)
    (hp : s.claps.filter (fun t => now - t < lookback_window) ≠ [])
    (hcool : pattern_cooldown ≤ now - s.last_pattern_time)
    (htimeout : pattern_timeout ≤
      now - (s.claps.filter (fun t => now - t < lookback_window)).getLast hp)
    (hgaps : List.Chain' gapInBounds (s.claps.filter (fun t => now - t < lookback_window))) :
    processClaps s now =
      ({ s with claps := [], last_pattern_time := now },
        some (if 3 ≤ (s.claps.filter (fun t => now - t < lookback_window)).length then "Party"
          else if (s.claps.filter (fun t => now - t < lookback_window)).length = 2 then
            "Relaxing"
          else "Normal")) := by
  have hv : validIntervals (s.claps.filter (fun t => now - t < lookback_window)) = true :=
    (validIntervals_iff _).mpr hgaps
  unfold processClaps
  rw [dif_neg hp, if_neg (not_lt.mpr hcool), if_neg (not_lt.mpr htimeout),
    if_neg (by simp [hv])]
  by_cases h3 : 3 ≤ (s.claps.filter (fun t => now - t < lookback_window)).length
  · rw [if_pos h3, if_pos h3]
  · rw [if_neg h3, if_neg h3]
    by_cases h2 : (s.claps.filter (fun t => now - t < lookback_window)).length = 2
    · rw [if_pos h2, if_pos h2]
    · rw [if_neg h2, if_neg h2]
      have h1 : (s.claps.filter (fun t => now - t < lookback_window)).length = 1 := by
        have hpos := List.length_pos.mpr hp
        omega
      rw [if_pos h1]

/-- Witness for C1: two claps at t = 1 and t = 1.3, evaluated at
t = 2.2, dispatch exactly "Relaxing" and reset the window. -/
theorem C1_valid_pattern_dispatch_witness :
    processClaps { initState with claps := [1, 13/10] } (22/10) =
      ({ initState with claps := [], last_pattern_time := 22/10 }, some "Relaxing") := by
  have h := C1_valid_pattern_dispatch { initState with claps := [1, 13/10] } (22/10)
    (by norm_num [initState, lookback_window]; exact List.cons_ne_nil _ _)
    (by norm_num [initState, pattern_cooldown])
    (by norm_num [initState, lookback_window, pattern_timeout, List.getLast])
    (by norm_num [initState, lookback_window, List.chain'_cons, List.chain'_singleton,
          gapInBounds, min_clap_interval, max_clap_interval])
  rw [h]
  norm_num [initState, lookback_window]

/-- C5: for every evaluation step in which the window is non-empty,
the cooldown is inactive, at least `pattern_timeout` has elapsed since
the last clap, and some consecutive gap in the window lies outside
`[min_clap_interval, max_clap_interval]`: no gesture is dispatched,
the window is cleared to empty, and the step returns normally (the
embedded function is total and this equation is its value). -/
theorem C5_invalid_pattern_discard (s : AudioState) (now : ℚ)
    (hp : s.claps.filter (fun t => now - t < lookback_window) ≠ [])
    (hcool : pattern_cooldown ≤ now - s.last_pattern_time)
    (htimeout : pattern_timeout ≤
      now - (s.claps.filter (fun t => now - t < lookback_window)).getLast hp)
    (hbad : ¬ List.Chain' gapInBounds (s.claps.filter (fun t => now - t < lookback_window))) :
    processClaps s now = ({ s with claps := [] }, none) := by
  have hv : validIntervals (s.claps.filter (fun t => now - t < lookback_window)) = false := by
    cases hvb : validIntervals (s.claps.filter (fun t => now - t < lookback_window))
    · rfl
    · exact absurd ((validIntervals_iff _).mp hvb) hbad
  unfold processClaps
  rw [dif_neg hp, if_neg (not_lt.mpr hcool), if_neg (not_lt.mpr htimeout), if_pos hv]

/-- Witness for C5: claps at t = 1 and t = 1.05 (gap 0.05 below the
minimum), evaluated at t = 2: window cleared, nothing dispatched. -/
theorem C5_invalid_pattern_discard_witness :
    processClaps { initState with claps := [1, 105/100] } 2 =
      ({ initState with claps := [] }, none) := by
  have h := C5_invalid_pattern_discard { initState with claps := [1, 105/100] } 2
    (by norm_num [initState, lookback_window]; exact List.cons_ne_nil _ _)
    (by norm_num [initState, pattern_cooldown])
    (by norm_num [initState, lookback_window, pattern_timeout, List.getLast])
    (by norm_num [initState, lookback_window, List.chain'_cons, List.chain'_singleton,
          gapInBounds, min_clap_interval, max_clap_interval])
  exact h

/-- C10: for every evaluation step taken while the cooldown is active
with a non-empty pruned window: no gesture is dispatched,
`last_fire_time` is unchanged, and the window is modified only by
pruning entries older than the 2.0s lookback — claps accepted during
the cooldown stay in the window. -/
theorem C10_cooldown_retains_window (s : AudioState) (now : ℚ)
    (hp : s.claps.filter (fun t => now - t < lookback_window) ≠ [])
    (hcool : now - s.last_pattern_time < pattern_cooldown) :
    processClaps s now =
      ({ s with claps := s.claps.filter (fun t => now - t < lookback_window) }, none) := by
  unfold processClaps
  rw [dif_neg hp, if_pos hcool]

/-- Witness for C10: a clap at t = 1 evaluated at t = 1 during the
cooldown stays in the window and nothing is dispatched. -/
theorem C10_cooldown_retains_window_witness :
    processClaps { initState with claps := [1] } 1 =
      ({ initState with claps := [1] }, none) := by
  have h := C10_cooldown_retains_window { initState with claps := [1] } 1
    (by norm_num [initState, lookback_window])
    (by norm_num [initState, pattern_cooldown])
  rw [h]
  norm_num [initState, lookback_window]

/-- C2: the clap validator rejects a block exactly when the peak index
lies past 70% of the block length, or, with the peak in time and at
least 100 trailing samples after it, the decay ratio (mean absolute
amplitude of the last 50 of the 100-sample post-peak window divided by
`peak + 1`) exceeds 0.5; in all other cases it accepts. -/
theorem C2_validator_characterization (data : List ℤ) (peak : ℚ) :
    isValidClap data peak = false ↔
      peakTooLate data ∨
        (¬ peakTooLate data ∧ 100 ≤ trailingSamples data ∧ 1/2 < decayRatio data peak) := by
  simp only [isValidClap, decayRatio, peakTooLate, trailingSamples]
  split_ifs with h1 h2 h3
  · exact iff_of_true rfl (Or.inl h1)
  · exact iff_of_true rfl (Or.inr ⟨h1, by omega, h3⟩)
  · refine iff_of_false (by simp) ?_
    rintro (hc | ⟨-, -, hc⟩)
    · exact h1 hc
    · exact h3 hc
  · refine iff_of_false (by simp) ?_
    rintro (hc | ⟨-, hc, -⟩)
    · exact h1 hc
    · omega

/-- C3: `process_claps` never dispatches a gesture while
`now - last_fire_time < cooldown`, and in every execution of the
detection loop the dispatched fire timestamps are pairwise at least
`pattern_cooldown` apart. -/
theorem C3_cooldown_invariant :
    (∀ (s : AudioState) (now : ℚ) (s1 : AudioState) (g : String),
        processClaps s now = (s1, some g) →
        pattern_cooldown ≤ now - s.last_pattern_time) ∧
    (∀ (s0 : AudioState) (inputs : List BlockInput) (s1 : AudioState)
        (acc : List ℚ) (fires : List (ℚ × String)),
        runListen s0 inputs = some (s1, acc, fires) →
        List.Pairwise (fun p q => pattern_cooldown ≤ q.1 - p.1) fires) := by
  constructor
  · intro s now s1 g h
    exact (processClaps_fire s now s1 g h).1
  · intro s0 inputs s1 acc fires h
    exact (runListen_fires inputs s0 s1 acc fires h).1

/-- Witness for C3: the demonstration run fires at t = 2 and t = 5,
3 seconds apart, and the t = 2 fire happens with the cooldown clock
still at its initial 0. -/
theorem C3_cooldown_invariant_witness :
    List.Pairwise (fun p q : ℚ × String => pattern_cooldown ≤ q.1 - p.1)
      [((2 : ℚ), "Normal"), ((5 : ℚ), "Normal")] ∧
    pattern_cooldown ≤ (2 : ℚ) - demoMid.last_pattern_time := by
  constructor
  · exact C3_cooldown_invariant.2 initState demoInputs demoEnd [1, 4]
      [(2, "Normal"), (5, "Normal")] demoRunEq
  · have h : processClaps
        { demoMid with ambient_samples := [400, 400], calibration_frames := 2 } 2 =
        (demoS2, some "Normal") := by
      norm_num [processClaps, validIntervals, demoMid, demoS2, initState, pattern_cooldown,
        pattern_timeout, lookback_window, min_clap_interval, max_clap_interval, List.getLast]
    exact C3_cooldown_invariant.1
      { demoMid with ambient_samples := [400, 400], calibration_frames := 2 } 2
      demoS2 "Normal" h

/-- C4: in every execution of the detection loop the accepted
clap-event timestamps are pairwise at least `min_clap_interval` apart,
and a block is promoted to a clap event only if its peak exceeds the
dynamic threshold, it passes the clap validator, and at least
`min_clap_interval` has elapsed since the previously accepted event's
timestamp (`last_peak_time`). -/
theorem C4_debounce_invariant :
    (∀ (s0 : AudioState) (inputs : List BlockInput) (s1 : AudioState)
        (acc : List ℚ) (fires : List (ℚ × String)),
        runListen s0 inputs = some (s1, acc, fires) →
        List.Pairwise (fun t1 t2 => min_clap_interval ≤ t2 - t1) acc) ∧
    (∀ (s : AudioState) (inp : BlockInput) (s1 : AudioState) (ev : Option ℚ)
        (fire : Option String) (t : ℚ),
        listenStep s inp = some (s1, ev, fire) → ev = some t →
        ∃ sa, ambientStep s inp.rms = some sa ∧
          ((blockPeak inp.block : ℤ) : ℚ) > sa.dynamic_threshold ∧
          isValidClap inp.block ((blockPeak inp.block : ℤ) : ℚ) = true ∧
          min_clap_interval ≤ inp.now - s.last_peak_time ∧ t = inp.now) := by
  constructor
  · intro s0 inputs s1 acc fires h
    exact (runListen_acc inputs s0 s1 acc fires h).1
  · intro s inp s1 ev fire t h het
    obtain ⟨sa, hA, hout⟩ := listenStep_eq_some s inp _ h
    obtain ⟨hpk, -, -⟩ := ambientStep_preserves s inp.rms sa hA
    injection hout with h1 hrest
    injection hrest with h2 h3
    rcases detectStep_cases sa inp with hd | ⟨hd, hpeak, hint, hvalid⟩
    · rw [hd] at h2
      rw [het] at h2
      cases h2
    · refine ⟨sa, hA, hpeak, hvalid, ?_, ?_⟩
      · rw [hpk] at hint
        exact le_of_lt hint
      · rw [hd] at h2
        rw [het] at h2
        exact (Option.some.injEq _ _).mp h2

/-- Witness for C4: the demonstration run accepts claps at t = 1 and
t = 4 (3 seconds apart), and its first block is promoted with peak
3000 above the threshold 2000, a valid shape, and the debounce clock
at its initial 0. -/
theorem C4_debounce_invariant_witness :
    List.Pairwise (fun t1 t2 : ℚ => min_clap_interval ≤ t2 - t1) [(1 : ℚ), 4] ∧
    (∃ sa, ambientStep initState (400 : ℚ) = some sa ∧
      ((blockPeak [3000] : ℤ) : ℚ) > sa.dynamic_threshold ∧
      isValidClap [3000] ((blockPeak [3000] : ℤ) : ℚ) = true ∧
      min_clap_interval ≤ (1 : ℚ) - initState.last_peak_time ∧ (1 : ℚ) = (1 : ℚ)) := by
  constructor
  · exact C4_debounce_invariant.1 initState demoInputs demoEnd [1, 4]
      [(2, "Normal"), (5, "Normal")] demoRunEq
  · exact C4_debounce_invariant.2 initState ⟨[3000], 400, 1, 1⟩ demoMid (some 1) none 1
      demoStep1 rfl

/-- C6: in every reachable state still in the calibration phase, the
detection threshold is the base threshold, and one more block appends
its RMS to the rolling buffer; before the 30th block nothing else
changes, and upon the 30th block `ambient_level` becomes the mean of
the rolling samples, `dynamic_threshold` becomes
`max(base_threshold, ambient_level * threshold_multiplier)`, and the
calibrating flag is cleared. -/
theorem C6_calibration_phase :
    ∀ (inputs : List BlockInput) (s : AudioState) (acc : List ℚ)
      (fires : List (ℚ × String)),
      runListen initState inputs = some (s, acc, fires) →
      s.is_calibrating = true →
      s.dynamic_threshold = base_threshold ∧
      ∀ rms : ℚ, ∃ s2, ambientStep s rms = some s2 ∧
        s2.ambient_samples = dequeAppend 50 s.ambient_samples rms ∧
        (s.calibration_frames + 1 < 30 →
          s2.is_calibrating = true ∧ s2.dynamic_threshold = base_threshold ∧
          s2.ambient_level = s.ambient_level) ∧
        (30 ≤ s.calibration_frames + 1 →
          s2.is_calibrating = false ∧
          s2.ambient_level = listMean (dequeAppend 50 s.ambient_samples rms) ∧
          s2.dynamic_threshold =
            max base_threshold (s2.ambient_level * threshold_multiplier)) := by
  intro inputs s acc fires hrun hcal
  obtain ⟨hthr, hamb⟩ := runListen_calibrating inputs initState s acc fires hrun
    (fun _ => ⟨rfl, rfl⟩) hcal
  refine ⟨hthr, ?_⟩
  intro rms
  unfold ambientStep
  rw [if_pos hcal]
  by_cases h30 : 30 ≤ s.calibration_frames + 1
  · rw [if_pos h30]
    refine ⟨_, rfl, rfl, ?_, ?_⟩
    · intro hlt
      omega
    · intro _
      refine ⟨rfl, ?_, rfl⟩
      show calibratedAmbient (dequeAppend 50 s.ambient_samples rms) = _
      rw [calibratedAmbient, if_neg (dequeAppend_ne_nil _ _)]
  · rw [if_neg h30]
    refine ⟨_, rfl, rfl, ?_, ?_⟩
    · intro _
      exact ⟨hcal, hthr, rfl⟩
    · intro hge
      omega

/-- Witness for C6: after 29 quiet blocks of RMS 400 the state is
still calibrating at the base threshold, and the 30th block of RMS 400
ends calibration with `ambient_level = 400` and threshold
`max(2000, 400 * 3) = 2000`. -/
theorem C6_calibration_phase_witness :
    ∃ s2, ambientStep calibState29 400 = some s2 ∧ s2.is_calibrating = false ∧
      s2.ambient_level = 400 ∧ s2.dynamic_threshold = 2000 := by
  have hrun : runListen initState calibInputs = some (calibState29, [], []) := by
    have h := calibQuietRun 29 initState rfl (by norm_num [initState])
      (by norm_num [initState]) rfl rfl
    rw [calibInputs, h]
    norm_num [initState, calibState29]
  obtain ⟨-, hstep⟩ := C6_calibration_phase calibInputs calibState29 [] [] hrun rfl
  obtain ⟨s2, hA, hsamp, -, hge⟩ := hstep 400
  obtain ⟨hcalF, hamb, hthr2⟩ := hge (by norm_num [calibState29, initState])
  refine ⟨s2, hA, hcalF, ?_, ?_⟩
  · rw [hamb, dequeAppend_spec _ _ (by norm_num [calibState29, initState])]
    rw [if_neg (by norm_num [calibState29, initState])]
    norm_num [listMean, calibState29, initState, List.sum_append, List.sum_replicate,
      nsmul_eq_mul]
  · rw [hthr2, hamb, dequeAppend_spec _ _ (by norm_num [calibState29, initState])]
    rw [if_neg (by norm_num [calibState29, initState])]
    norm_num [listMean, calibState29, initState, List.sum_append, List.sum_replicate,
      nsmul_eq_mul, base_threshold, threshold_multiplier]

/-- C7: every state reachable by the detection loop from the initial
state (the initial state included) satisfies
`dynamic_threshold = max(base_threshold, ambient_level *
threshold_multiplier)`, hence `dynamic_threshold ≥ base_threshold`. -/
theorem C7_threshold_invariant :
    ∀ (inputs : List BlockInput) (s : AudioState) (acc : List ℚ)
      (fires : List (ℚ × String)),
      runListen initState inputs = some (s, acc, fires) →
      s.dynamic_threshold = max base_threshold (s.ambient_level * threshold_multiplier) ∧
      base_threshold ≤ s.dynamic_threshold := by
  intro inputs s acc fires h
  have hinit : initState.dynamic_threshold =
      max base_threshold (initState.ambient_level * threshold_multiplier) := by
    norm_num [initState, base_threshold, threshold_multiplier]
  have hs := runListen_threshold inputs initState s acc fires h hinit
  exact ⟨hs, by rw [hs]; exact le_max_left _ _⟩

/-- Witness for C7: the empty run reaches the initial state, whose
threshold is `max(2000, 500 * 3) = 2000 ≥ 2000`. -/
theorem C7_threshold_invariant_witness :
    initState.dynamic_threshold =
      max base_threshold (initState.ambient_level * threshold_multiplier) ∧
    base_threshold ≤ initState.dynamic_threshold :=
  C7_threshold_invariant [] initState [] [] rfl

/-- C8: in steady state, a block with RMS at or above half the dynamic
threshold leaves the whole ambient state unchanged, while a quieter
block appends its RMS to the rolling buffer (evicting the oldest entry
when the buffer holds 50 values) and recomputes `ambient_level` and
`dynamic_threshold` from the updated buffer. -/
theorem C8_steady_ambient_update (s : AudioState) (rms : ℚ)
    (hcal : s.is_calibrating = false) (hlen : s.ambient_samples.length ≤ 50) :
    (s.dynamic_threshold * (1/2) ≤ rms → ambientStep s rms = some s) ∧
    (rms < s.dynamic_threshold * (1/2) →
      ∃ s2, ambientStep s rms = some s2 ∧
        s2.ambient_samples =
          (if s.ambient_samples.length = 50
            then s.ambient_samples.drop 1 ++ [rms]
            else s.ambient_samples ++ [rms]) ∧
        s2.ambient_level = listMean s2.ambient_samples ∧
        s2.dynamic_threshold =
          max base_threshold (s2.ambient_level * threshold_multiplier)) := by
  constructor
  · intro hloud
    unfold ambientStep
    rw [if_neg (by rw [hcal]; exact Bool.false_ne_true), if_neg (not_lt.mpr hloud)]
  · intro hquiet
    unfold ambientStep
    rw [if_neg (by rw [hcal]; exact Bool.false_ne_true), if_pos hquiet,
      npMean_dequeAppend, Option.map_some']
    exact ⟨_, rfl, (dequeAppend_spec _ _ hlen).symm ▸ dequeAppend_spec _ _ hlen, rfl, rfl⟩

/-- Witness for C8: in a steady state with threshold 2000 and an empty
buffer, RMS 1000 (= threshold/2) changes nothing, while RMS 999 is
appended, making `ambient_level = 999` and threshold
`max(2000, 999 * 3) = 2997`. -/
theorem C8_steady_ambient_update_witness :
    ambientStep steadyState 1000 = some steadyState ∧
    (∃ s2, ambientStep steadyState 999 = some s2 ∧
      s2.ambient_samples =
        (if steadyState.ambient_samples.length = 50
          then steadyState.ambient_samples.drop 1 ++ [999]
          else steadyState.ambient_samples ++ [999]) ∧
      s2.ambient_level = listMean s2.ambient_samples ∧
      s2.dynamic_threshold =
        max base_threshold (s2.ambient_level * threshold_multiplier)) := by
  constructor
  · exact (C8_steady_ambient_update steadyState 1000 rfl (by norm_num [steadyState,
      initState])).1 (by norm_num [steadyState, initState, base_threshold])
  · exact (C8_steady_ambient_update steadyState 999 rfl (by norm_num [steadyState,
      initState])).2 (by norm_num [steadyState, initState, base_threshold])

/-- C9: the ambient-level computation never divides by zero and never
produces a NaN: the rolling buffer handed to the mean is never empty
(the calibration path guards the empty case with a fallback, and the
steady path takes the mean right after an append), so every ambient
update and every full loop iteration produces a well-defined state. -/
theorem C9_no_nan :
    ∀ (s : AudioState) (rms : ℚ) (inp : BlockInput),
      (∃ s1, ambientStep s rms = some s1) ∧
      dequeAppend 50 s.ambient_samples rms ≠ [] ∧
      (∃ out, listenStep s inp = some out) := by
  intro s rms inp
  refine ⟨ambientStep_total s rms, dequeAppend_ne_nil _ _, ?_⟩
  obtain ⟨sa, hA⟩ := ambientStep_total s inp.rms
  exact ⟨_, by rw [listenStep, hA, Option.map_some']⟩

end AudioControl
